import Mathlib

/-!
Verification of the ChatHelpBot moderation core against its specification.

The definitions below are a shallow embedding of the Python sources:

* `src/utils.py` — duration parsing (`parse_timedelta`);
* `src/handlers/moderation/antispam.py` — the sliding-window spam
  detector and the group-message filter chain (`antispam_handler`);
* `src/handlers/moderation/filters.py` — banned-word and per-user filters;
* `src/handlers/moderation/warns.py` — warn records, reconciliation and
  the warn-threshold ban;
* `src/handlers/moderation/commands.py` / `text_commands.py` — target
  resolution and the mute-duration floor.

Modelling conventions, stated once:

* timestamps are integers in milliseconds (the Python code uses
  `datetime` values; milliseconds let the half-second test points of the
  spec be expressed exactly);
* platform calls (`restrict_chat_member`, `ban_chat_member`,
  `delete_message`, `get_chat`, `message.answer`) are effects: their
  *issuance* is recorded in a result trace, and their success or failure
  is an explicit boolean/`Option` input to the model;
* Telegram user ids are positive and usernames/full names are nonempty
  strings, so Python truthiness of these optional values coincides with
  `Option.isSome`; where the code tests an id for truthiness we keep the
  `≠ 0` test explicitly;
* the per-(chat,user) maps `user_messages` and `recent_spam_mutes` are
  modelled for one fixed (chat,user) key, which is faithful because no
  code path touches another key.
-/

namespace ChatHelpBot

/-! ### Constants (antispam.py lines 22-25, warns.py line 20, utils.py line 15) -/

/-- `SPAM_MAX_MESSAGES = 4` -/
def SPAM_MAX_MESSAGES : Nat := 4

/-- `SPAM_TIME_WINDOW = 3` seconds, in milliseconds. -/
def SPAM_TIME_WINDOW_MS : Int := 3000

/-- `SPAM_MUTE_DURATION = timedelta(minutes=5)`, in milliseconds. -/
def SPAM_MUTE_DURATION_MS : Int := 300000

/-- `SPAM_MUTE_COOLDOWN_SECONDS = 10`, in milliseconds. -/
def SPAM_MUTE_COOLDOWN_MS : Int := 10000

/-- `MAX_WARNS = 3` (warns.py). -/
def MAX_WARNS : Nat := 3

/-- `MIN_MUTE_SECONDS = 30` (handlers/moderation/utils.py). -/
def MIN_MUTE_SECONDS : Nat := 30

/-! ### Characters and strings (Python `str.lower`, `\d`, `str.isdigit`) -/

/-- Python's `\d` on the ASCII inputs this bot receives: `'0'..'9'`. -/
def isPyDigit (c : Char) : Bool := 48 ≤ c.toNat && c.toNat ≤ 57

/-- Python `str.lower`, restricted to the alphabets this bilingual bot
meets: ASCII `A`-`Z`, Cyrillic `А`-`Я` (U+0410..U+042F, offset 0x20) and
`Ё` (U+0401 → U+0451); everything else is fixed. -/
def pyLower (c : Char) : Char :=
  if 65 ≤ c.toNat ∧ c.toNat ≤ 90 then Char.ofNat (c.toNat + 32)
  else if 1040 ≤ c.toNat ∧ c.toNat ≤ 1071 then Char.ofNat (c.toNat + 32)
  else if c.toNat = 1025 then Char.ofNat 1105
  else c

/-- Python `str.lower` over a whole string. -/
def lowerStr (s : String) : String := String.mk (s.toList.map pyLower)

/-- Python `str.isdigit`: nonempty and all digits. -/
def pyIsDigit (s : String) : Bool := s.toList ≠ [] && s.toList.all isPyDigit

/-- Accumulator-style splitter on whitespace runs (the accumulator holds
the current field reversed). -/
def pySplitAux (acc : List Char) : List Char → List String
  | [] => if acc = [] then [] else [String.mk acc.reverse]
  | c :: cs =>
    if c.isWhitespace then
      if acc = [] then pySplitAux [] cs
      else String.mk acc.reverse :: pySplitAux [] cs
    else pySplitAux (c :: acc) cs

/-- Python `str.split()` with no argument: split on whitespace runs,
dropping empty fields. -/
def pySplit (s : String) : List String := pySplitAux [] s.toList

/-- Python `str.split(",")`: split at every comma, keeping empty
fields. -/
def splitCommaAux (acc : List Char) : List Char → List String
  | [] => [String.mk acc.reverse]
  | c :: cs =>
    if c = ',' then String.mk acc.reverse :: splitCommaAux [] cs
    else splitCommaAux (c :: acc) cs

/-- Python `str.split(",")` over a string. -/
def pySplitComma (s : String) : List String := splitCommaAux [] s.toList

/-- Python `str.strip()`: drop leading and trailing whitespace. -/
def pyStrip (s : String) : String :=
  String.mk
    (((s.toList.dropWhile Char.isWhitespace).reverse.dropWhile
      Char.isWhitespace).reverse)

/-- Decimal value of a digit run (how Python's `int` reads the matched
`value` group). -/
def digitsToNat (ds : List Char) : Nat :=
  ds.foldl (fun a c => a * 10 + (c.toNat - 48)) 0

/-! ### TimeSpec parser (utils.py `parse_timedelta`) -/

/-- The unit letters of `TIME_PATTERN`: `[wdhmsндчмс]`. -/
def isTimeUnit (c : Char) : Bool :=
  c = 'w' || c = 'd' || c = 'h' || c = 'm' || c = 's' ||
  c = 'н' || c = 'д' || c = 'ч' || c = 'м' || c = 'с'

/-- `TIME_MULTIPLIERS`: seconds per unit letter. -/
def timeMultiplier (c : Char) : Nat :=
  if c = 'w' || c = 'н' then 604800
  else if c = 'd' || c = 'д' then 86400
  else if c = 'h' || c = 'ч' then 3600
  else if c = 'm' || c = 'м' then 60
  else 1

/-- Left-to-right scan implementing `TIME_PATTERN.findall`: a token is a
maximal digit run immediately followed by a unit letter; the scan resumes
after each match, and a digit run followed by anything else matches
nothing (the regex cannot shorten the greedy `\d+` onto another digit).
The accumulator holds the digit run read so far. -/
def scanTokens (run : List Char) : List Char → List (List Char × Char)
  | [] => []
  | c :: cs =>
    if isPyDigit c then scanTokens (run ++ [c]) cs
    else if run ≠ [] ∧ isTimeUnit c then (run, c) :: scanTokens [] cs
    else scanTokens [] cs

/-- `TIME_PATTERN.findall(s)` as (digit-run, unit) pairs. -/
def findTimeTokens (l : List Char) : List (List Char × Char) :=
  scanTokens [] l

/-- Total seconds of a token list (the summation loop of
`parse_timedelta`). -/
def tokensTotalSeconds (ts : List (List Char × Char)) : Nat :=
  (ts.map (fun t => digitsToNat t.1 * timeMultiplier t.2)).sum

/-- `parse_timedelta`, returning the duration in whole seconds.
`none` models Python `None`. -/
def parse_timedelta (s : String) : Option Nat :=
  if s = "" then none
  else if findTimeTokens ((lowerStr s).toList) = [] then none
  else if tokensTotalSeconds (findTimeTokens ((lowerStr s).toList)) = 0 then none
  else some (tokensTotalSeconds (findTimeTokens ((lowerStr s).toList)))

/-! ### Sliding-window spam detector (antispam.py lines 38-62) -/

/-- `clean_old_messages`: keep entries with `ts > now - window`. -/
def clean_old_messages (now : Int) (w : List (Int × Nat)) : List (Int × Nat) :=
  w.filter (fun e => e.1 > now - SPAM_TIME_WINDOW_MS)

/-- `check_and_get_spam_messages`: prune, append `(now, message_id)`,
flag when the list length exceeds `SPAM_MAX_MESSAGES`.  Returns the
post-append list (the new `user_messages[key]`) and `some ids` on spam. -/
def check_and_get_spam_messages (now : Int) (msgId : Nat)
    (w : List (Int × Nat)) : List (Int × Nat) × Option (List Nat) :=
  let l := clean_old_messages now w ++ [(now, msgId)]
  (l, if l.length > SPAM_MAX_MESSAGES then some (l.map Prod.snd) else none)

/-- Run a sequence of arrivals `(timestamp, message_id)` through the
detector from a given window state, collecting each step's verdict. -/
def runSpamDetector : List (Int × Nat) → List (Int × Nat) →
    List (Option (List Nat))
  | [], _ => []
  | (t, mid) :: rest, w =>
    let r := check_and_get_spam_messages t mid w
    r.2 :: runSpamDetector rest r.1

/-! ### Message-level filters (filters.py) -/

/-- A group message, as far as the filter chain reads it: id, body text
and media caption. -/
structure GroupMsg where
  msgId : Nat
  text : Option String
  caption : Option String
deriving Repr, DecidableEq

/-- Python truthiness of an optional string (`""` is falsy). -/
def optNonEmpty : Option String → Option String
  | some s => if s = "" then none else some s
  | none => none

/-- `get_message_text`: the body if truthy, else the caption if truthy,
else `None`. -/
def get_message_text (m : GroupMsg) : Option String :=
  match optNonEmpty m.text with
  | some t => some t
  | none => optNonEmpty m.caption

/-- Python's `in` on strings: contiguous-substring test, as a Bool via
the decidable `List.IsInfix`. -/
def charsInfix (a b : List Char) : Bool := decide (a <:+: b)

/-- `contains_bad_word`, over the banned-word list as loaded by
`load_bad_words` (entries already stripped and lowercased): empty list
short-circuits to `False`, otherwise case-insensitive substring match. -/
def contains_bad_word (badWords : List String) (text : String) : Bool :=
  if badWords = [] then false
  else badWords.any (fun w => charsInfix w.toList (lowerStr text).toList)

/-- `check_bad_words` (the sender is present on every chain message):
returns whether the message was removed by the banned-word stage, and the
delete calls it issued.  `badWordsEnabled` models "the chat row exists
and `bad_words_enabled` is set". -/
def check_bad_words (badWordsEnabled : Bool) (badWords : List String)
    (m : GroupMsg) : Bool × List Nat :=
  match get_message_text m with
  | none => (false, [])
  | some text =>
    if !badWordsEnabled then (false, [])
    else if contains_bad_word badWords text then (true, [m.msgId])
    else (false, [])

/-- One `UserFilter` row for the sender, as the per-user filter stage
reads it. -/
structure UserFilterRec where
  pattern : String
  filterType : String
  isActive : Bool
  notify : Bool
deriving Repr, DecidableEq

/-- `should_filter_message`: split the pattern on commas, strip and
lowercase each part; `block` deletes on any nonempty matching part,
`allow` deletes when no part matches, other kinds never match. -/
def should_filter_message (textLower : String) (f : UserFilterRec) : Bool :=
  let patterns := (pySplitComma f.pattern).map
    (fun p => lowerStr (pyStrip p))
  if f.filterType = "block" then
    patterns.any (fun p => p ≠ "" && charsInfix p.toList textLower.toList)
  else if f.filterType = "allow" then
    !(patterns.any (fun p => p ≠ "" && charsInfix p.toList textLower.toList))
  else false

/-- `check_user_filters` body (the SQL `is_active` restriction applied to
the given rows): whether the first matching active filter deleted the
message, and whether it asked to notify the owner. -/
def check_user_filters (filters : List UserFilterRec) (m : GroupMsg) :
    Bool × Bool :=
  match get_message_text m with
  | none => (false, false)
  | some text =>
    let active := filters.filter (fun f => f.isActive)
    if active = [] then (false, false)
    else
      match active.find? (fun f => should_filter_message (lowerStr text) f) with
      | some f => (true, f.notify)
      | none => (false, false)

/-! ### Daily statistics (antispam.py `update_message_stats`) -/

/-- One chat's `MessageStats` rows as date → count pairs (the table keeps
at most one row per date, as `scalar_one_or_none` assumes). -/
def statsUpsert (stats : List (String × Nat)) (today : String) :
    List (String × Nat) :=
  if (stats.find? (fun r => r.1 = today)).isSome then
    stats.map (fun r => if r.1 = today then (r.1, r.2 + 1) else r)
  else stats ++ [(today, 1)]

/-! ### The antispam handler / filter chain (antispam.py lines 86-163) -/

/-- In-memory spam state for the fixed (chat,user): the window list
`user_messages[key]` and the cooldown timestamp
`recent_spam_mutes.get(key)`. -/
structure SpamState where
  window : List (Int × Nat)
  lastMute : Option Int
deriving Repr, DecidableEq

/-- Inputs the handler obtains from the platform and the store:
permission-query results, whether the `restrict_chat_member` call in the
punishment path succeeds, the chat's banned-word setting and list, the
sender's filter rows, and today's date key. -/
structure ChainEnv where
  isAdmin : Bool
  canRestrict : Bool
  restrictOk : Bool
  badWordsEnabled : Bool
  badWords : List String
  userFilters : List UserFilterRec
  today : String
deriving Repr

/-- Everything one run of `antispam_handler` leaves behind: the new
in-memory state, the stats rows, and the trace of platform effects. -/
structure ChainResult where
  window : List (Int × Nat)
  lastMute : Option Int
  stats : List (String × Nat)
  /-- `until_date` of each `restrict_chat_member` call issued. -/
  restrictCalls : List Int
  /-- message ids of each `delete_message` call issued. -/
  deletedMsgs : List Nat
  /-- the "Авто-мут за спам" notice was posted. -/
  noticeSent : Bool
  statsUpdated : Bool
  badWordsEvaluated : Bool
  deletedByBadWords : Bool
  userFiltersEvaluated : Bool
  deletedByUserFilter : Bool
  adminNotified : Bool
deriving Repr, DecidableEq

/-- The cooldown test `last_mute and (now - last_mute).total_seconds() <
SPAM_MUTE_COOLDOWN_SECONDS`. -/
def cooldownActive (lastMute : Option Int) (now : Int) : Bool :=
  match lastMute with
  | some t => now - t < SPAM_MUTE_COOLDOWN_MS
  | none => false

/-- The tail of the handler after the spam block: update stats, run the
banned-word stage, and only if it did not delete run the per-user
filters.  `restrictCalls`, `deleted` and `notice` carry the effects of
the spam block. -/
def continueChain (env : ChainEnv) (st : SpamState)
    (stats : List (String × Nat)) (m : GroupMsg)
    (restrictCalls : List Int) (deleted : List Nat) (notice : Bool) :
    ChainResult :=
  let stats' := statsUpsert stats env.today
  let bw := check_bad_words env.badWordsEnabled env.badWords m
  if bw.1 then
    { window := st.window, lastMute := st.lastMute, stats := stats'
      restrictCalls := restrictCalls, deletedMsgs := deleted ++ bw.2
      noticeSent := notice, statsUpdated := true, badWordsEvaluated := true
      deletedByBadWords := true, userFiltersEvaluated := false
      deletedByUserFilter := false, adminNotified := false }
  else
    let uf := check_user_filters env.userFilters m
    { window := st.window, lastMute := st.lastMute, stats := stats'
      restrictCalls := restrictCalls
      deletedMsgs := deleted ++ (if uf.1 then [m.msgId] else [])
      noticeSent := notice, statsUpdated := true, badWordsEvaluated := true
      deletedByBadWords := false, userFiltersEvaluated := true
      deletedByUserFilter := uf.1, adminNotified := uf.1 && uf.2 }

/-- `antispam_handler` for one group message with a present sender, after
`cache_user` (pure observation).  Admin senders and a bot without
restrict rights short-circuit everything.  On spam during the mute
cooldown the handler deletes the new message and returns.  Otherwise the
punishment path issues the restrict call; only when it succeeds are the
cooldown timestamp recorded, the tracked messages deleted, the window
cleared and the notice posted (a failure hits `except Exception: pass`).
Both ways the chain then continues with stats and the filters. -/
def antispam_handler (env : ChainEnv) (st : SpamState)
    (stats : List (String × Nat)) (now : Int) (m : GroupMsg) : ChainResult :=
  if env.isAdmin || !env.canRestrict then
    { window := st.window, lastMute := st.lastMute, stats := stats
      restrictCalls := [], deletedMsgs := [], noticeSent := false
      statsUpdated := false, badWordsEvaluated := false
      deletedByBadWords := false, userFiltersEvaluated := false
      deletedByUserFilter := false, adminNotified := false }
  else
    match (check_and_get_spam_messages now m.msgId st.window).2 with
    | some spamIds =>
      if cooldownActive st.lastMute now then
        { window := (check_and_get_spam_messages now m.msgId st.window).1
          lastMute := st.lastMute, stats := stats
          restrictCalls := [], deletedMsgs := [m.msgId], noticeSent := false
          statsUpdated := false, badWordsEvaluated := false
          deletedByBadWords := false, userFiltersEvaluated := false
          deletedByUserFilter := false, adminNotified := false }
      else if env.restrictOk then
        continueChain env { window := [], lastMute := some now } stats m
          [now + SPAM_MUTE_DURATION_MS] spamIds true
      else
        continueChain env
          { window := (check_and_get_spam_messages now m.msgId st.window).1
            lastMute := st.lastMute } stats m
          [now + SPAM_MUTE_DURATION_MS] [] false
    | none =>
      continueChain env
        { window := (check_and_get_spam_messages now m.msgId st.window).1
          lastMute := st.lastMute } stats m
        [] [] false

/-! ### Warn records and reconciliation (warns.py)

Python truthiness on optional Telegram identifiers: ids are ≥ 1 and
usernames are nonempty, so `if x:` on them coincides with presence and
is modelled as such throughout this section. -/

/-- One `Warn` row (the timestamp column plays no role in any claim and
is omitted; nothing reads it). -/
structure WarnRec where
  chatId : Nat
  userId : Option Nat
  username : Option String
  reason : Option String
  warnedBy : Nat
deriving Repr, DecidableEq

/-- `WarnTarget` (warns.py lines 32-38). -/
structure WarnTarget where
  userId : Option Nat
  username : Option String
  userName : String
deriving Repr, DecidableEq

/-- The Telegram lookups `enrich_user_data_via_api` performs:
`idOf u` models `get_chat("@u").id` (`none` = exception or falsy chat),
`usernameOf i` models `get_chat(i).username`. -/
structure WarnApi where
  idOf : String → Option Nat
  usernameOf : Nat → Option String

/-- `find_and_merge_user_data`: fill the missing identifier from
existing rows, and once both are known back-fill every row matching
either identifier with both.  Returns the updated table and the merged
pair. -/
def find_and_merge_user_data (db : List WarnRec) (chatId : Nat)
    (userId : Option Nat) (username : Option String) :
    List WarnRec × Option Nat × Option String :=
  let foundId : Option Nat :=
    match userId, username with
    | none, some u =>
      match db.find? (fun r => r.chatId = chatId && r.username = some u &&
          r.userId.isSome) with
      | some r => r.userId
      | none => none
    | uid, _ => uid
  let foundU : Option String :=
    match userId, username with
    | some uid, none =>
      match db.find? (fun r => r.chatId = chatId && r.userId = some uid &&
          r.username.isSome) with
      | some r => r.username
      | none => none
    | _, un => un
  match foundId, foundU with
  | some uid, some u =>
    (db.map (fun r =>
      if r.chatId = chatId && (r.userId = some uid || r.username = some u)
      then { r with userId := some uid, username := some u }
      else r), some uid, some u)
  | fid, fu => (db, fid, fu)

/-- `get_user_warns_count`: merge, commit, then count by the merged id
if known, else by the merged username, else 0. -/
def get_user_warns_count (db : List WarnRec) (chatId : Nat)
    (userId : Option Nat) (username : Option String) : List WarnRec × Nat :=
  let fm := find_and_merge_user_data db chatId userId (username.map lowerStr)
  match fm.2.1 with
  | some uid =>
    (fm.1, fm.1.countP (fun r => r.chatId = chatId && r.userId = some uid))
  | none =>
    match fm.2.2 with
    | some u =>
      (fm.1, fm.1.countP (fun r => r.chatId = chatId && r.username = some u))
    | none => (fm.1, 0)

/-- `enrich_user_data_via_api`: when exactly one identifier is known,
try the platform for the other (usernames are lowercased as in the
code); failures leave the data as it was. -/
def enrich_user_data_via_api (api : WarnApi) (userId : Option Nat)
    (username : Option String) : Option Nat × Option String :=
  match userId, username with
  | some uid, some u => (some uid, some u)
  | none, some u => (api.idOf u, some u)
  | some uid, none => (some uid, (api.usernameOf uid).map lowerStr)
  | none, none => (none, none)

/-- `add_warn` (the `bot` argument is always supplied on the command
paths, so the API enrichment always runs): enrich, merge, insert the new
row with the best-known pair, and report the resulting count.  Returns
(table, count, final id, final username). -/
def add_warn (db : List WarnRec) (chatId : Nat) (userId : Option Nat)
    (username : Option String) (reason : Option String) (warnedBy : Nat)
    (api : WarnApi) : List WarnRec × Nat × Option Nat × Option String :=
  let e := enrich_user_data_via_api api userId (username.map lowerStr)
  let fm := find_and_merge_user_data db chatId e.1 e.2
  let finalId := fm.2.1 <|> e.1
  let finalU := fm.2.2 <|> e.2
  let db2 := fm.1 ++ [⟨chatId, finalId, finalU, reason, warnedBy⟩]
  let gc := get_user_warns_count db2 chatId finalId finalU
  (gc.1, gc.2, finalId, finalU)

/-- `remove_user_warns`: merge, then delete by the merged id, else the
merged username, else the raw arguments; returns how many rows went. -/
def remove_user_warns (db : List WarnRec) (chatId : Nat)
    (userId : Option Nat) (username : Option String) : List WarnRec × Nat :=
  let uL := username.map lowerStr
  let fm := find_and_merge_user_data db chatId userId uL
  let cond : Option (WarnRec → Bool) :=
    match fm.2.1 with
    | some uid => some (fun r => r.userId = some uid)
    | none =>
      match fm.2.2 with
      | some u => some (fun r => r.username = some u)
      | none =>
        match userId with
        | some uid => some (fun r => r.userId = some uid)
        | none =>
          match uL with
          | some u => some (fun r => r.username = some u)
          | none => none
  match cond with
  | none => (fm.1, 0)
  | some c =>
    (fm.1.filter (fun r => !(r.chatId = chatId && c r)),
     fm.1.countP (fun r => r.chatId = chatId && c r))

/-- `try_ban_for_warns`: below the threshold or without a numeric id,
nothing happens; without restrict rights, nothing happens; otherwise one
`ban_chat_member` call is issued (counted even when it fails), and only
on success are the target's warns removed.  Returns (table, number of
ban calls, handled). -/
def try_ban_for_warns (db : List WarnRec) (chatId : Nat)
    (target : WarnTarget) (warnCount : Nat) (canRestrict banOk : Bool) :
    List WarnRec × Nat × Bool :=
  if warnCount < MAX_WARNS || target.userId = none then (db, 0, false)
  else if !canRestrict then (db, 0, false)
  else if banOk then
    ((remove_user_warns db chatId target.userId target.username).1, 1, true)
  else (db, 1, true)

/-- The shared tail of `cmd_warn` / `handle_text_warn` after the target
passed `check_warn_target`: add the warn, then try the threshold ban
with the *resolution's* identifiers.  Returns (table, ban calls issued,
the count `add_warn` reported). -/
def warn_flow (db : List WarnRec) (chatId : Nat) (target : WarnTarget)
    (reason : Option String) (warnedBy : Nat) (api : WarnApi)
    (canRestrict banOk : Bool) : List WarnRec × Nat × Nat :=
  let aw := add_warn db chatId target.userId target.username reason warnedBy api
  let tb := try_ban_for_warns aw.1 chatId target aw.2.1 canRestrict banOk
  (tb.1, tb.2.1, aw.2.1)

/-! ### Target resolution (text_commands.py `resolve_user_arg`,
commands.py `get_target_user`) -/

/-- A message entity as `resolve_user_arg` reads it: its type string and
(for `text_mention`) the attached user's (id, full name). -/
structure MentionEntity where
  etype : String
  user : Option (Nat × String)
deriving Repr, DecidableEq

/-- A `bot.get_chat` result: id plus optional full name and username. -/
structure ApiChat where
  id : Nat
  fullName : Option String
  username : Option String
deriving Repr, DecidableEq

/-- The in-process username cache, keyed by (chat id, lowercased
username) with (user id, full name) values.  The LRU bookkeeping and the
10000-entry cap of `LRUUsernameCache` never influence lookups below
capacity and are not modelled. -/
abbrev UsernameCache := List ((Nat × String) × (Nat × String))

/-- `user_arg.lstrip("@").lower()`. -/
def cleanUname (s : String) : String :=
  String.mk ((s.toList.dropWhile (fun c => c = '@')).map pyLower)

/-- `get_cached_user`. -/
def get_cached_user (cache : UsernameCache) (chatId : Nat) (username : String) :
    Option Nat × Option String :=
  match cache.find? (fun e => e.1 = (chatId, cleanUname username)) with
  | some e => (some e.2.1, some e.2.2)
  | none => (none, none)

/-- `username_cache[(chat_id, key)] = value` (dict update: overwrite or
append). -/
def cacheInsert (cache : UsernameCache) (k : Nat × String) (v : Nat × String) :
    UsernameCache :=
  if (cache.find? (fun e => e.1 = k)).isSome then
    cache.map (fun e => if e.1 = k then (k, v) else e)
  else cache ++ [(k, v)]

/-- `chat.full_name or chat.username or first_arg` (the Python `or`
chain; names from the platform are nonempty). -/
def apiChatName (chat : ApiChat) (fallback : String) : String :=
  match chat.fullName with
  | some n => n
  | none =>
    match chat.username with
    | some u => u
    | none => fallback

/-- `resolve_user_arg` (text_commands.py lines 128-162): digits are a
literal id; an `@` argument tries the cache, then `text_mention`
entities, then the platform (caching the result); anything else fails.
`api` is the `bot.get_chat(user_arg)` outcome. -/
def resolve_user_arg (userArg : String) (chatId : Nat)
    (entities : List MentionEntity) (cache : UsernameCache)
    (api : Option ApiChat) :
    (Option Nat × Option String) × UsernameCache :=
  if pyIsDigit userArg then
    ((some (digitsToNat userArg.toList), some ("ID:" ++ userArg)), cache)
  else if userArg.toList.head? = some '@' then
    match (get_cached_user cache chatId userArg).1 with
    | some cid => ((some cid, (get_cached_user cache chatId userArg).2), cache)
    | none =>
      match entities.find? (fun e => e.etype = "text_mention" && e.user.isSome)
          with
      | some e =>
        match e.user with
        | some u => ((some u.1, some u.2), cache)
        | none => ((none, none), cache)
      | none =>
        match api with
        | some chat =>
          let name := apiChatName chat userArg
          ((some chat.id, some name),
            cacheInsert cache (chatId, cleanUname userArg) (chat.id, name))
        | none => ((none, none), cache)
  else ((none, none), cache)

/-- `get_target_user` (commands.py lines 25-54): reply sender first;
else the first argument after the command token — digits are a literal
id, an `@` argument goes straight to `bot.get_chat` with no cache read,
no entity scan and no caching of the result. -/
def get_target_user (reply : Option (Nat × String)) (text : Option String)
    (api : Option ApiChat) : Option Nat × Option String :=
  match reply with
  | some u => (some u.1, some u.2)
  | none =>
    let args :=
      match text with
      | some t => (pySplit t).drop 1
      | none => []
    match args.head? with
    | none => (none, none)
    | some firstArg =>
      if pyIsDigit firstArg then
        (some (digitsToNat firstArg.toList), some ("ID:" ++ firstArg))
      else if firstArg.toList.head? = some '@' then
        match api with
        | some chat => (some chat.id, some (apiChatName chat firstArg))
        | none => (none, none)
      else (none, none)

/-- The resolution order claim C7 describes, written from the spec's
words: "attempt: (a) username cache lookup; (b) explicit user-mention
entities attached to the message; (c) platform lookup by handle, caching
the result on success", first success wins. -/
def specResolutionCascade (userArg : String) (chatId : Nat)
    (entities : List MentionEntity) (cache : UsernameCache)
    (api : Option ApiChat) :
    (Option Nat × Option String) × UsernameCache :=
  match (get_cached_user cache chatId userArg).1 with
  | some cid => ((some cid, (get_cached_user cache chatId userArg).2), cache)
  | none =>
    match entities.find? (fun e => e.etype = "text_mention" && e.user.isSome)
        with
    | some e => ((e.user.map Prod.fst, e.user.map Prod.snd), cache)
    | none =>
      match api with
      | some chat =>
        let name := apiChatName chat userArg
        ((some chat.id, some name),
          cacheInsert cache (chatId, cleanUname userArg) (chat.id, name))
      | none => ((none, none), cache)

/-- Platform lookup by handle alone — what the slash-command resolver
actually attempts for an `@` argument. -/
def specPlatformOnly (userArg : String) (api : Option ApiChat) :
    Option Nat × Option String :=
  match api with
  | some chat => (some chat.id, some (apiChatName chat userArg))
  | none => (none, none)

/-! ### Mute-duration floor (commands.py `cmd_mute`,
text_commands.py `execute_mute`) -/

/-- What a mute command did: the `restrict_chat_member` calls issued
(`some t` = with `until_date` t, `none` = permanent) and whether the
"Минимальное время мута — 30 секунд." validation message was sent.
Durations come from `parse_timedelta`, which never returns a zero
duration, so the Python truthiness test on `ctx.duration` coincides with
presence. -/
structure MuteTrace where
  restrictCalls : List (Option Int)
  rejectedTooShort : Bool
deriving Repr, DecidableEq

/-- The duration handling of `execute_mute` (text_commands.py lines
298-321): reject under the floor without restricting; otherwise restrict
until `now + duration` (or permanently when no duration was given). -/
def execute_mute (durationSec : Option Nat) (now : Int) : MuteTrace :=
  match durationSec with
  | some d =>
    if d < MIN_MUTE_SECONDS then
      { restrictCalls := [], rejectedTooShort := true }
    else
      { restrictCalls := [some (now + 1000 * d)], rejectedTooShort := false }
  | none => { restrictCalls := [none], rejectedTooShort := false }

/-- The identical duration handling of the slash command `cmd_mute`
(commands.py lines 206-227). -/
def cmd_mute (durationSec : Option Nat) (now : Int) : MuteTrace :=
  match durationSec with
  | some d =>
    if d < MIN_MUTE_SECONDS then
      { restrictCalls := [], rejectedTooShort := true }
    else
      { restrictCalls := [some (now + 1000 * d)], rejectedTooShort := false }
  | none => { restrictCalls := [none], rejectedTooShort := false }

/-! ### Duration-string rendering, for stating token-order independence -/

/-- A well-formed duration token: a nonempty digit run and a known
lower-case unit letter (exactly what `TIME_PATTERN` recognises). -/
def WfTimeToken (t : List Char × Char) : Prop :=
  t.1 ≠ [] ∧ (∀ c ∈ t.1, isPyDigit c = true) ∧ isTimeUnit t.2 = true ∧
    pyLower t.2 = t.2

instance (t : List Char × Char) : Decidable (WfTimeToken t) := by
  unfold WfTimeToken; infer_instance

/-- Concatenate tokens back into an input string (`1d12h30m` from
`[1d, 12h, 30m]`). -/
def renderTokensStr (ts : List (List Char × Char)) : String :=
  String.mk ((ts.map (fun t => t.1 ++ [t.2])).flatten)

/-- Date lookup in a chat's `MessageStats` rows. -/
def statsLookup (stats : List (String × Nat)) (d : String) : Option Nat :=
  (stats.find? (fun r => r.1 = d)).map Prod.snd

theorem statsUpsert_lookup (stats : List (String × Nat)) (today : String) :
    statsLookup (statsUpsert stats today) today =
      some ((statsLookup stats today).getD 0 + 1) := by
  unfold statsLookup statsUpsert
  cases hfind : stats.find? (fun r => r.1 = today) with
  | none =>
    simp [hfind, List.find?_append]
  | some a =>
    have ha : a.1 = today := by
      have := List.find?_some hfind
      simpa using this
    simp only [hfind, Option.isSome_some, if_pos]
    rw [List.find?_map]
    have hcomp :
        (fun r : String × Nat => decide (r.1 = today)) ∘
          (fun r : String × Nat => if r.1 = today then (r.1, r.2 + 1) else r) =
        fun r : String × Nat => decide (r.1 = today) := by
      funext r
      by_cases h : r.1 = today <;> simp [h]
    rw [hcomp, hfind]
    simp [ha]

theorem continueChain_eff (env : ChainEnv) (st : SpamState)
    (stats : List (String × Nat)) (m : GroupMsg)
    (rc : List Int) (d : List Nat) (n : Bool) :
    (continueChain env st stats m rc d n).restrictCalls = rc ∧
    (continueChain env st stats m rc d n).window = st.window ∧
    (continueChain env st stats m rc d n).lastMute = st.lastMute ∧
    (continueChain env st stats m rc d n).stats = statsUpsert stats env.today ∧
    (continueChain env st stats m rc d n).noticeSent = n ∧
    (continueChain env st stats m rc d n).statsUpdated = true ∧
    (continueChain env st stats m rc d n).badWordsEvaluated = true := by
  unfold continueChain
  dsimp only
  split <;> exact ⟨rfl, rfl, rfl, rfl, rfl, rfl, rfl⟩

theorem check_bad_words_snd (en : Bool) (bws : List String) (m : GroupMsg) :
    (check_bad_words en bws m).2 = [] ∨
      (check_bad_words en bws m).2 = [m.msgId] := by
  unfold check_bad_words
  split
  · exact Or.inl rfl
  · split
    · exact Or.inl rfl
    · split
      · exact Or.inr rfl
      · exact Or.inl rfl

theorem continueChain_deleted (env : ChainEnv) (st : SpamState)
    (stats : List (String × Nat)) (m : GroupMsg)
    (rc : List Int) (d : List Nat) (n : Bool) :
    ∀ i ∈ (continueChain env st stats m rc d n).deletedMsgs,
      i ∈ d ∨ i = m.msgId := by
  intro i hi
  unfold continueChain at hi
  dsimp only at hi
  split at hi
  · rw [List.mem_append] at hi
    rcases hi with h1 | h1
    · exact Or.inl h1
    · rcases check_bad_words_snd env.badWordsEnabled env.badWords m with
        he | he <;> rw [he] at h1 <;> simp at h1
      exact Or.inr h1
  · dsimp only at hi
    rw [List.mem_append] at hi
    rcases hi with h1 | h1
    · exact Or.inl h1
    · split at h1 <;> simp at h1
      exact Or.inr h1

theorem pyLower_digit {c : Char} (h : isPyDigit c = true) : pyLower c = c := by
  unfold isPyDigit at h
  rw [Bool.and_eq_true, decide_eq_true_eq, decide_eq_true_eq] at h
  unfold pyLower
  split_ifs with h1 h2 h3 <;> first | omega | rfl

theorem unit_not_digit {c : Char} (h : isTimeUnit c = true) :
    isPyDigit c = false := by
  unfold isTimeUnit at h
  simp only [Bool.or_eq_true, decide_eq_true_eq] at h
  rcases h with ((((((((h | h) | h) | h) | h) | h) | h) | h) | h) | h <;>
    subst h <;> decide

theorem lower_fixes_render {ts : List (List Char × Char)}
    (wf : ∀ t ∈ ts, WfTimeToken t) :
    ((ts.map (fun t => t.1 ++ [t.2])).flatten).map pyLower =
      (ts.map (fun t => t.1 ++ [t.2])).flatten := by
  induction ts with
  | nil => rfl
  | cons t rest ih =>
    have wt := wf t (List.mem_cons_self t rest)
    simp only [List.map_cons, List.flatten_cons, List.map_append]
    rw [ih (fun u hu => wf u (List.mem_cons_of_mem t hu))]
    have h1 : List.map pyLower t.1 = t.1 := by
      rw [List.map_congr_left (fun c hc => pyLower_digit (wt.2.1 c hc))]
      exact List.map_id t.1
    simp [h1, wt.2.2.2]

theorem scanTokens_digits (r : List Char) (acc l : List Char)
    (h : ∀ c ∈ r, isPyDigit c = true) :
    scanTokens acc (r ++ l) = scanTokens (acc ++ r) l := by
  induction r generalizing acc with
  | nil => simp
  | cons c r ih =>
    have hc := h c (List.mem_cons_self c r)
    show scanTokens acc (c :: (r ++ l)) = _
    rw [scanTokens, if_pos hc,
      ih (acc ++ [c]) (fun d hd => h d (List.mem_cons_of_mem c hd))]
    simp

theorem findTimeTokens_render {ts : List (List Char × Char)}
    (wf : ∀ t ∈ ts, WfTimeToken t) :
    findTimeTokens ((ts.map (fun t => t.1 ++ [t.2])).flatten) = ts := by
  unfold findTimeTokens
  induction ts with
  | nil => rfl
  | cons t rest ih =>
    have wt := wf t (List.mem_cons_self t rest)
    simp only [List.map_cons, List.flatten_cons]
    rw [List.append_assoc, scanTokens_digits t.1 [] _ wt.2.1,
      List.nil_append]
    show scanTokens t.1 (t.2 :: (rest.map (fun t => t.1 ++ [t.2])).flatten) = _
    rw [scanTokens]
    rw [if_neg (by simp [unit_not_digit wt.2.2.1]),
      if_pos ⟨wt.1, wt.2.2.1⟩]
    rw [ih (fun u hu => wf u (List.mem_cons_of_mem t hu))]

theorem tokensTotalSeconds_perm {ts ts' : List (List Char × Char)}
    (hp : ts.Perm ts') : tokensTotalSeconds ts = tokensTotalSeconds ts' := by
  unfold tokensTotalSeconds
  exact List.Perm.sum_eq (hp.map _)

/-! ### Theorems: the claims settled -/

/-- Claim C1: for every arrival processed by the spam detector (prune
entries older than 3 seconds, then append), spam is flagged exactly when
the post-append list length exceeds the threshold of 4, and the flagged
set returned is exactly the set of arrivals not yet pruned at that
moment; concretely, 5 messages at t = 0, 0.5, 1, 1.5, 2 s flag on the
5th with a flagged set of size 5, while 5 messages at t = 0, 1, 2, 4,
5 s never flag. -/
theorem c1_sliding_window_correct :
    (∀ (w : List (Int × Nat)) (now : Int) (msgId : Nat),
      check_and_get_spam_messages now msgId w =
        (clean_old_messages now w ++ [(now, msgId)],
          if (clean_old_messages now w ++ [(now, msgId)]).length >
              SPAM_MAX_MESSAGES
          then some ((clean_old_messages now w ++ [(now, msgId)]).map Prod.snd)
          else none))
  ∧ runSpamDetector [(0, 1), (500, 2), (1000, 3), (1500, 4), (2000, 5)] [] =
      [none, none, none, none, some [1, 2, 3, 4, 5]]
  ∧ runSpamDetector [(0, 1), (1000, 2), (2000, 3), (4000, 4), (5000, 5)] [] =
      [none, none, none, none, none] :=
  ⟨fun _ _ _ => rfl, by decide, by decide⟩

theorem renderTokensStr_ne_empty {ts : List (List Char × Char)}
    (h : ts ≠ []) : renderTokensStr ts ≠ "" := by
  cases ts with
  | nil => exact absurd rfl h
  | cons t rest =>
    intro he
    have hd := congrArg String.data he
    simp [renderTokensStr] at hd

theorem parse_timedelta_render {us : List (List Char × Char)}
    (wfu : ∀ t ∈ us, WfTimeToken t) (hne : us ≠ []) :
    parse_timedelta (renderTokensStr us) =
      (if tokensTotalSeconds us = 0 then none
       else some (tokensTotalSeconds us)) := by
  have hlt : (lowerStr (renderTokensStr us)).toList =
      (us.map (fun t => t.1 ++ [t.2])).flatten := lower_fixes_render wfu
  unfold parse_timedelta
  rw [if_neg (renderTokensStr_ne_empty hne), hlt, findTimeTokens_render wfu,
    if_neg hne]

/-- Claim C8: the duration parser sums all matching integer-unit tokens,
so its result is independent of token order (stated for every rendered
well-formed token list and any permutation of it, and concretely
`1d12h30m` = `30m1d12h` = 1 day + 12 hours + 30 minutes in seconds);
unknown unit letters fail to match and are not summed (`5x3m` = 3
minutes); zero matching tokens (`1x`) or a zero sum (`0s`) yield no
duration. -/
theorem c8_parse_order_independent :
    (∀ ts ts' : List (List Char × Char), (∀ t ∈ ts, WfTimeToken t) →
      ts.Perm ts' →
      parse_timedelta (renderTokensStr ts) =
        parse_timedelta (renderTokensStr ts'))
  ∧ parse_timedelta "1d12h30m" = some (86400 + 12 * 3600 + 30 * 60)
  ∧ parse_timedelta "30m1d12h" = parse_timedelta "1d12h30m"
  ∧ parse_timedelta "0s" = none
  ∧ parse_timedelta "5x3m" = some 180
  ∧ parse_timedelta "1x" = none := by
  refine ⟨?_, by decide, by decide, by decide, by decide, by decide⟩
  intro ts ts' wf hp
  by_cases hnil : ts = []
  · subst hnil
    rw [hp.symm.eq_nil]
  · have wf' : ∀ t ∈ ts', WfTimeToken t := fun t ht => wf t (hp.symm.subset ht)
    have hnil' : ts' ≠ [] := by
      intro h; subst h; exact hnil hp.eq_nil
    rw [parse_timedelta_render wf hnil, parse_timedelta_render wf' hnil',
      tokensTotalSeconds_perm hp]

/-- Witness for C8: the order-independence part applied to the token
lists of `1d30m` and `30m1d`. -/
theorem c8_witness :
    parse_timedelta (renderTokensStr [(['1'], 'd'), (['3', '0'], 'm')]) =
      parse_timedelta (renderTokensStr [(['3', '0'], 'm'), (['1'], 'd')]) :=
  c8_parse_order_independent.1 _ _ (by decide) (by decide)

/-- Claim C9: for both the slash and the bare-word mute command, an
explicit parsed duration strictly under 30 seconds is rejected with the
validation message and no restrict call is issued; a duration of at
least 30 seconds is passed through exactly (`until = now + duration`),
never clamped. -/
theorem c9_mute_floor (d : Nat) (now : Int) :
    (d < MIN_MUTE_SECONDS →
      execute_mute (some d) now = ⟨[], true⟩ ∧
      cmd_mute (some d) now = ⟨[], true⟩)
  ∧ (MIN_MUTE_SECONDS ≤ d →
      execute_mute (some d) now = ⟨[some (now + 1000 * d)], false⟩ ∧
      cmd_mute (some d) now = ⟨[some (now + 1000 * d)], false⟩) := by
  constructor
  · intro h
    exact ⟨by simp [execute_mute, h], by simp [cmd_mute, h]⟩
  · intro h
    exact ⟨by simp [execute_mute, Nat.not_lt.mpr h],
      by simp [cmd_mute, Nat.not_lt.mpr h]⟩

/-- Witness for C9 at 10 seconds (rejected) and 45 seconds (passed
through unclamped). -/
theorem c9_witness :
    execute_mute (some 10) 0 = ⟨[], true⟩ ∧
    cmd_mute (some 45) 0 = ⟨[some ((0 : Int) + 1000 * 45)], false⟩ :=
  ⟨((c9_mute_floor 10 0).1 (by decide)).1,
   ((c9_mute_floor 45 0).2 (by decide)).2⟩

theorem handler_flagged_some (w : List (Int × Nat)) (now : Int) (mid : Nat)
    (hFlag : SPAM_MAX_MESSAGES < (clean_old_messages now w).length + 1) :
    (check_and_get_spam_messages now mid w).2 =
      some ((clean_old_messages now w ++ [(now, mid)]).map Prod.snd) := by
  have hlen :
      (clean_old_messages now w ++ [(now, mid)]).length >
        SPAM_MAX_MESSAGES := by
    simp only [List.length_append, List.length_cons, List.length_nil,
      Nat.zero_add]
    exact hFlag
  simp only [check_and_get_spam_messages]
  rw [if_pos hlen]

/-- Claim C2: for a flagged spam event within 10 seconds of the recorded
last auto-mute of the same (chat,user), no restrict call is issued but
the newly arrived message is still deleted; for a flagged event with no
mute recorded within the last 10 seconds, a fresh 5-minute restrict call
is issued and (the call succeeding) the cooldown timestamp is set to
now. -/
theorem c2_mute_cooldown (env : ChainEnv) (st : SpamState)
    (stats : List (String × Nat)) (now : Int) (m : GroupMsg)
    (hA : env.isAdmin = false) (hR : env.canRestrict = true)
    (hFlag : SPAM_MAX_MESSAGES <
      (clean_old_messages now st.window).length + 1) :
    (cooldownActive st.lastMute now = true →
      (antispam_handler env st stats now m).restrictCalls = [] ∧
      (antispam_handler env st stats now m).deletedMsgs = [m.msgId])
  ∧ (cooldownActive st.lastMute now = false → env.restrictOk = true →
      (antispam_handler env st stats now m).restrictCalls =
        [now + SPAM_MUTE_DURATION_MS] ∧
      (antispam_handler env st stats now m).lastMute = some now) := by
  have hsome := handler_flagged_some st.window now m.msgId hFlag
  unfold antispam_handler
  rw [if_neg (by simp [hA, hR]), hsome]
  dsimp only
  constructor
  · intro hc
    rw [if_pos hc]
    exact ⟨rfl, rfl⟩
  · intro hc hok
    rw [if_neg (by simp [hc]), if_pos hok]
    have h := continueChain_eff env { window := [], lastMute := some now }
      stats m [now + SPAM_MUTE_DURATION_MS]
      ((clean_old_messages now st.window ++ [(now, m.msgId)]).map Prod.snd)
      true
    exact ⟨h.1, h.2.2.1⟩

theorem continueChain_stage (env : ChainEnv) (st : SpamState)
    (stats : List (String × Nat)) (m : GroupMsg)
    (rc : List Int) (d : List Nat) (n : Bool) :
    (continueChain env st stats m rc d n).userFiltersEvaluated =
      !(continueChain env st stats m rc d n).deletedByBadWords := by
  unfold continueChain
  dsimp only
  split <;> rfl

theorem continueChain_badword (env : ChainEnv) (st : SpamState)
    (stats : List (String × Nat)) (m : GroupMsg)
    (rc : List Int) (d : List Nat) (n : Bool)
    (hbw : check_bad_words env.badWordsEnabled env.badWords m =
      (true, [m.msgId])) :
    (continueChain env st stats m rc d n).deletedMsgs = d ++ [m.msgId] ∧
    (continueChain env st stats m rc d n).deletedByBadWords = true ∧
    (continueChain env st stats m rc d n).userFiltersEvaluated = false := by
  unfold continueChain
  rw [hbw]
  exact ⟨rfl, rfl, rfl⟩

theorem cooldown_mono {lm : Option Int} {now now2 : Int}
    (h : cooldownActive lm now = false) (hle : now ≤ now2) :
    cooldownActive lm now2 = false := by
  cases lm with
  | none => rfl
  | some t =>
    simp only [cooldownActive, decide_eq_false_iff_not, not_lt] at h ⊢
    omega

/-- Witness for C2: a 5th quick message 0.4 s after a recorded mute is
deleted without a second restrict call. -/
theorem c2_witness :
    (antispam_handler
        { isAdmin := false, canRestrict := true, restrictOk := true,
          badWordsEnabled := false, badWords := [], userFilters := [],
          today := "2026-10-12" }
        { window := [(0, 1), (100, 2), (200, 3), (300, 4)],
          lastMute := some 0 }
        [] 400 { msgId := 5, text := some "hi", caption := none }).restrictCalls = [] ∧
    (antispam_handler
        { isAdmin := false, canRestrict := true, restrictOk := true,
          badWordsEnabled := false, badWords := [], userFilters := [],
          today := "2026-10-12" }
        { window := [(0, 1), (100, 2), (200, 3), (300, 4)],
          lastMute := some 0 }
        [] 400 { msgId := 5, text := some "hi", caption := none }).deletedMsgs = [5] :=
  (c2_mute_cooldown _ _ _ _ _ rfl rfl (by decide)).1 (by decide)

/-- Counterexample to C3: a flagged detection during the mute cooldown
leaves the tracked window list with all five entries — the list is not
cleared on every spam detection, so the window is not empty immediately
after this detection. -/
theorem c3_counterexample :
    (check_and_get_spam_messages 400 5
        [(0, 1), (100, 2), (200, 3), (300, 4)]).2 = some [1, 2, 3, 4, 5] ∧
    (antispam_handler
        { isAdmin := false, canRestrict := true, restrictOk := true,
          badWordsEnabled := false, badWords := [], userFilters := [],
          today := "2026-10-12" }
        { window := [(0, 1), (100, 2), (200, 3), (300, 4)],
          lastMute := some 0 }
        [] 400 { msgId := 5, text := some "hi", caption := none }).window = [(0, 1), (100, 2), (200, 3), (300, 4), (400, 5)] := by
  decide

/-- Claim C3 amended: whenever the detector flags spam it returns the
full list of currently tracked message ids, but the tracked list is
cleared only when the auto-mute path runs and the restrict call
succeeds; in the cooldown-suppression path (and on restrict failure) the
per-(chat,user) window keeps the post-append entries. -/
theorem c3_amended (env : ChainEnv) (st : SpamState)
    (stats : List (String × Nat)) (now : Int) (m : GroupMsg)
    (hA : env.isAdmin = false) (hR : env.canRestrict = true)
    (hFlag : SPAM_MAX_MESSAGES <
      (clean_old_messages now st.window).length + 1) :
    (check_and_get_spam_messages now m.msgId st.window).2 =
      some ((check_and_get_spam_messages now m.msgId st.window).1.map
        Prod.snd) ∧
    (cooldownActive st.lastMute now = false → env.restrictOk = true →
      (antispam_handler env st stats now m).window = []) ∧
    (cooldownActive st.lastMute now = true →
      (antispam_handler env st stats now m).window =
        clean_old_messages now st.window ++ [(now, m.msgId)] ∧
      (antispam_handler env st stats now m).window ≠ []) ∧
    (cooldownActive st.lastMute now = false → env.restrictOk = false →
      (antispam_handler env st stats now m).window =
        clean_old_messages now st.window ++ [(now, m.msgId)]) := by
  have hsome := handler_flagged_some st.window now m.msgId hFlag
  refine ⟨by rw [hsome]; rfl, ?_, ?_, ?_⟩
  · intro hc hok
    unfold antispam_handler
    rw [if_neg (by simp [hA, hR]), hsome]
    dsimp only
    rw [if_neg (by simp [hc]), if_pos hok]
    exact (continueChain_eff _ _ _ _ _ _ _).2.1
  · intro hc
    unfold antispam_handler
    rw [if_neg (by simp [hA, hR]), hsome]
    dsimp only
    rw [if_pos hc]
    exact ⟨rfl, by simp [check_and_get_spam_messages]⟩
  · intro hc hok
    unfold antispam_handler
    rw [if_neg (by simp [hA, hR]), hsome]
    dsimp only
    rw [if_neg (by simp [hc]), if_neg (by simp [hok])]
    exact (continueChain_eff _ _ _ _ _ _ _).2.1

/-- Witness for the amended C3: in the cooldown path the window equals
the pruned-plus-appended list and is nonempty. -/
theorem c3_witness :
    (antispam_handler
        { isAdmin := false, canRestrict := true, restrictOk := true,
          badWordsEnabled := false, badWords := [], userFilters := [],
          today := "2026-10-12" }
        { window := [(0, 1), (100, 2), (200, 3), (300, 4)],
          lastMute := some 0 }
        [] 400 { msgId := 5, text := some "hi", caption := none }).window =
        clean_old_messages 400 [(0, 1), (100, 2), (200, 3), (300, 4)] ++
          [(400, 5)] ∧
    (antispam_handler
        { isAdmin := false, canRestrict := true, restrictOk := true,
          badWordsEnabled := false, badWords := [], userFilters := [],
          today := "2026-10-12" }
        { window := [(0, 1), (100, 2), (200, 3), (300, 4)],
          lastMute := some 0 }
        [] 400 { msgId := 5, text := some "hi", caption := none }).window ≠ [] :=
  (c3_amended _ _ _ _ _ rfl rfl (by decide)).2.2.1 (by decide)

/-- Counterexample to C5: when the spam stage fires during the mute
cooldown, the handler returns early — the per-day message counter is not
updated and neither the banned-word stage nor the per-user filters
evaluate the message, contradicting the claim that the spam stage never
stops the chain. -/
theorem c5_counterexample :
    ((check_and_get_spam_messages 400 5
        [(0, 1), (100, 2), (200, 3), (300, 4)]).2).isSome = true ∧
    (antispam_handler
        { isAdmin := false, canRestrict := true, restrictOk := true,
          badWordsEnabled := true, badWords := ["spamword"],
          userFilters := [{ pattern := "x", filterType := "block",
                            isActive := true, notify := false }],
          today := "2026-10-12" }
        { window := [(0, 1), (100, 2), (200, 3), (300, 4)],
          lastMute := some 0 }
        [("2026-10-12", 3)] 400
        { msgId := 5, text := some "hi", caption := none }).statsUpdated =
      false ∧
    (antispam_handler
        { isAdmin := false, canRestrict := true, restrictOk := true,
          badWordsEnabled := true, badWords := ["spamword"],
          userFilters := [{ pattern := "x", filterType := "block",
                            isActive := true, notify := false }],
          today := "2026-10-12" }
        { window := [(0, 1), (100, 2), (200, 3), (300, 4)],
          lastMute := some 0 }
        [("2026-10-12", 3)] 400
        { msgId := 5, text := some "hi", caption := none }).stats =
      [("2026-10-12", 3)] ∧
    (antispam_handler
        { isAdmin := false, canRestrict := true, restrictOk := true,
          badWordsEnabled := true, badWords := ["spamword"],
          userFilters := [{ pattern := "x", filterType := "block",
                            isActive := true, notify := false }],
          today := "2026-10-12" }
        { window := [(0, 1), (100, 2), (200, 3), (300, 4)],
          lastMute := some 0 }
        [("2026-10-12", 3)] 400
        { msgId := 5, text := some "hi", caption := none }).badWordsEvaluated =
      false ∧
    (antispam_handler
        { isAdmin := false, canRestrict := true, restrictOk := true,
          badWordsEnabled := true, badWords := ["spamword"],
          userFilters := [{ pattern := "x", filterType := "block",
                            isActive := true, notify := false }],
          today := "2026-10-12" }
        { window := [(0, 1), (100, 2), (200, 3), (300, 4)],
          lastMute := some 0 }
        [("2026-10-12", 3)] 400
        { msgId := 5, text := some "hi", caption := none }).userFiltersEvaluated =
      false := by
  decide

/-- Claim C5 amended: for a non-admin group message processed while the
bot can restrict, the chain continues past the spam stage — the per-day
counter is upserted (today's row created with count 1 if absent, else
incremented) and the banned-word and per-user filter stages still run —
except when the spam stage fired during the mute cooldown, in which case
the handler deletes the new message and returns early. -/
theorem c5_amended (env : ChainEnv) (st : SpamState)
    (stats : List (String × Nat)) (now : Int) (m : GroupMsg)
    (hA : env.isAdmin = false) (hR : env.canRestrict = true)
    (hNoCool : ((check_and_get_spam_messages now m.msgId st.window).2).isSome =
        true →
      cooldownActive st.lastMute now = false) :
    (antispam_handler env st stats now m).statsUpdated = true ∧
    (antispam_handler env st stats now m).stats = statsUpsert stats env.today ∧
    statsLookup (antispam_handler env st stats now m).stats env.today =
      some ((statsLookup stats env.today).getD 0 + 1) ∧
    (antispam_handler env st stats now m).badWordsEvaluated = true ∧
    ((antispam_handler env st stats now m).deletedByBadWords = false →
      (antispam_handler env st stats now m).userFiltersEvaluated = true) := by
  have main : ∀ (st2 : SpamState) (rc : List Int) (d : List Nat) (n : Bool),
      (continueChain env st2 stats m rc d n).statsUpdated = true ∧
      (continueChain env st2 stats m rc d n).stats =
        statsUpsert stats env.today ∧
      statsLookup (continueChain env st2 stats m rc d n).stats env.today =
        some ((statsLookup stats env.today).getD 0 + 1) ∧
      (continueChain env st2 stats m rc d n).badWordsEvaluated = true ∧
      ((continueChain env st2 stats m rc d n).deletedByBadWords = false →
        (continueChain env st2 stats m rc d n).userFiltersEvaluated = true) := by
    intro st2 rc d n
    have he := continueChain_eff env st2 stats m rc d n
    refine ⟨he.2.2.2.2.2.1, he.2.2.2.1, ?_, he.2.2.2.2.2.2, ?_⟩
    · rw [he.2.2.2.1]
      exact statsUpsert_lookup stats env.today
    · intro hbw
      rw [continueChain_stage, hbw]
      rfl
  unfold antispam_handler
  rw [if_neg (by simp [hA, hR])]
  cases hsp : (check_and_get_spam_messages now m.msgId st.window).2 with
  | none =>
    dsimp only
    exact main _ _ _ _
  | some ids =>
    dsimp only
    rw [if_neg (by simp [hNoCool (by rw [hsp]; rfl)])]
    cases hok : env.restrictOk with
    | true =>
      rw [if_pos rfl]
      exact main _ _ _ _
    | false =>
      rw [if_neg (by simp)]
      exact main _ _ _ _

/-- Witness for the amended C5: an ordinary message increments the
existing daily counter row. -/
theorem c5_witness :
    (antispam_handler
        { isAdmin := false, canRestrict := true, restrictOk := true,
          badWordsEnabled := false, badWords := [], userFilters := [],
          today := "2026-10-12" }
        { window := [], lastMute := none } [("2026-10-12", 3)] 400
        { msgId := 5, text := some "hi", caption := none }).statsUpdated =
      true ∧
    statsLookup
        (antispam_handler
          { isAdmin := false, canRestrict := true, restrictOk := true,
            badWordsEnabled := false, badWords := [], userFilters := [],
            today := "2026-10-12" }
          { window := [], lastMute := none } [("2026-10-12", 3)] 400
          { msgId := 5, text := some "hi", caption := none }).stats
        "2026-10-12" =
      some ((statsLookup [("2026-10-12", 3)] "2026-10-12").getD 0 + 1) :=
  ⟨(c5_amended _ _ _ _ _ rfl rfl (by decide)).1,
   (c5_amended _ _ _ _ _ rfl rfl (by decide)).2.2.1⟩

theorem check_bad_words_fires {env : ChainEnv} {m : GroupMsg} {txt : String}
    (hText : get_message_text m = some txt)
    (hEn : env.badWordsEnabled = true)
    (hBad : contains_bad_word env.badWords txt = true) :
    check_bad_words env.badWordsEnabled env.badWords m = (true, [m.msgId]) := by
  unfold check_bad_words
  rw [hText]
  simp [hEn, hBad]

/-- Claim C6: for a group message whose effective text (body or media
caption) contains a banned word (case-insensitive substring match) while
chat-wide banned-word filtering is enabled, processed by the chain (the
sender is not an admin, the bot can restrict, and the spam stage did not
return early in its cooldown path), the message is deleted and the
per-user pattern filters are never evaluated — for every per-user filter
list, including one whose allow-filter would have let the message
stand. -/
theorem c6_bad_word_short_circuit (env : ChainEnv) (st : SpamState)
    (stats : List (String × Nat)) (now : Int) (m : GroupMsg) (txt : String)
    (hA : env.isAdmin = false) (hR : env.canRestrict = true)
    (hText : get_message_text m = some txt)
    (hEn : env.badWordsEnabled = true)
    (hBad : contains_bad_word env.badWords txt = true)
    (hNoCool : ((check_and_get_spam_messages now m.msgId st.window).2).isSome =
        true →
      cooldownActive st.lastMute now = false) :
    m.msgId ∈ (antispam_handler env st stats now m).deletedMsgs ∧
    (antispam_handler env st stats now m).deletedByBadWords = true ∧
    (antispam_handler env st stats now m).userFiltersEvaluated = false := by
  have hbw := check_bad_words_fires hText hEn hBad
  have main : ∀ (st2 : SpamState) (rc : List Int) (d : List Nat) (n : Bool),
      m.msgId ∈ (continueChain env st2 stats m rc d n).deletedMsgs ∧
      (continueChain env st2 stats m rc d n).deletedByBadWords = true ∧
      (continueChain env st2 stats m rc d n).userFiltersEvaluated = false := by
    intro st2 rc d n
    have h := continueChain_badword env st2 stats m rc d n hbw
    exact ⟨by rw [h.1]; simp, h.2.1, h.2.2⟩
  unfold antispam_handler
  rw [if_neg (by simp [hA, hR])]
  cases hsp : (check_and_get_spam_messages now m.msgId st.window).2 with
  | none =>
    dsimp only
    exact main _ _ _ _
  | some ids =>
    dsimp only
    rw [if_neg (by simp [hNoCool (by rw [hsp]; rfl)])]
    cases hok : env.restrictOk with
    | true =>
      rw [if_pos rfl]
      exact main _ _ _ _
    | false =>
      rw [if_neg (by simp)]
      exact main _ _ _ _

/-- Witness for C6: a banned word is present and the sender's own allow
filter matches (on its own it would not have deleted the message); the
message is still deleted by the banned-word stage and the per-user
filters never run. -/
theorem c6_witness :
    check_user_filters
        [{ pattern := "hello", filterType := "allow", isActive := true,
           notify := true }]
        { msgId := 9, text := some "hello spamword", caption := none } =
      (false, false) ∧
    9 ∈ (antispam_handler
        { isAdmin := false, canRestrict := true, restrictOk := true,
          badWordsEnabled := true, badWords := ["spamword"],
          userFilters := [{ pattern := "hello", filterType := "allow",
                            isActive := true, notify := true }],
          today := "2026-10-12" }
        { window := [], lastMute := none } [] 400
        { msgId := 9, text := some "hello spamword",
          caption := none }).deletedMsgs ∧
    (antispam_handler
        { isAdmin := false, canRestrict := true, restrictOk := true,
          badWordsEnabled := true, badWords := ["spamword"],
          userFilters := [{ pattern := "hello", filterType := "allow",
                            isActive := true, notify := true }],
          today := "2026-10-12" }
        { window := [], lastMute := none } [] 400
        { msgId := 9, text := some "hello spamword",
          caption := none }).userFiltersEvaluated = false :=
  ⟨by decide,
   (c6_bad_word_short_circuit _ _ _ _ _ "hello spamword" rfl rfl (by decide)
      rfl (by decide) (by decide)).1,
   (c6_bad_word_short_circuit _ _ _ _ _ "hello spamword" rfl rfl (by decide)
      rfl (by decide) (by decide)).2.2⟩

/-- Claim C10: if the restrict call of the spam-punishment path fails,
no in-memory spam state mutates — the cooldown timestamp is unchanged,
the window keeps the post-append entries, no tracked message is deleted
(at most the current message by the independent filter stages), no
auto-mute notice is posted — and the restrict call was still issued; the
very next message (arriving before any entry leaves the window)
re-triggers detection and a fresh restrict attempt. -/
theorem c10_restrict_failure_no_mutation (env : ChainEnv) (st : SpamState)
    (stats : List (String × Nat)) (now : Int) (m : GroupMsg)
    (hA : env.isAdmin = false) (hR : env.canRestrict = true)
    (hFlag : SPAM_MAX_MESSAGES <
      (clean_old_messages now st.window).length + 1)
    (hCool : cooldownActive st.lastMute now = false)
    (hFail : env.restrictOk = false) :
    (antispam_handler env st stats now m).window =
      clean_old_messages now st.window ++ [(now, m.msgId)] ∧
    (antispam_handler env st stats now m).lastMute = st.lastMute ∧
    (antispam_handler env st stats now m).noticeSent = false ∧
    (∀ i ∈ (antispam_handler env st stats now m).deletedMsgs, i = m.msgId) ∧
    (antispam_handler env st stats now m).restrictCalls =
      [now + SPAM_MUTE_DURATION_MS] ∧
    (∀ (now2 : Int) (m2 : GroupMsg) (stats2 : List (String × Nat)),
      now ≤ now2 →
      (∀ e ∈ clean_old_messages now st.window ++ [(now, m.msgId)],
        now2 - SPAM_TIME_WINDOW_MS < e.1) →
      ((check_and_get_spam_messages now2 m2.msgId
          (clean_old_messages now st.window ++ [(now, m.msgId)])).2).isSome =
        true ∧
      (antispam_handler env
          { window := clean_old_messages now st.window ++ [(now, m.msgId)],
            lastMute := st.lastMute }
          stats2 now2 m2).restrictCalls = [now2 + SPAM_MUTE_DURATION_MS]) := by
  have hsome := handler_flagged_some st.window now m.msgId hFlag
  have hres :
      (antispam_handler env st stats now m).window =
        clean_old_messages now st.window ++ [(now, m.msgId)] ∧
      (antispam_handler env st stats now m).lastMute = st.lastMute ∧
      (antispam_handler env st stats now m).noticeSent = false ∧
      (∀ i ∈ (antispam_handler env st stats now m).deletedMsgs,
        i = m.msgId) ∧
      (antispam_handler env st stats now m).restrictCalls =
        [now + SPAM_MUTE_DURATION_MS] := by
    unfold antispam_handler
    rw [if_neg (by simp [hA, hR]), hsome]
    dsimp only
    rw [if_neg (by simp [hCool]), if_neg (by simp [hFail])]
    have he := continueChain_eff env
      ⟨clean_old_messages now st.window ++ [(now, m.msgId)], st.lastMute⟩
      stats m [now + SPAM_MUTE_DURATION_MS] [] false
    refine ⟨he.2.1, he.2.2.1, he.2.2.2.2.1, ?_, he.1⟩
    intro i hi
    have := continueChain_deleted env
      ⟨clean_old_messages now st.window ++ [(now, m.msgId)], st.lastMute⟩
      stats m [now + SPAM_MUTE_DURATION_MS] [] false i hi
    rcases this with h | h
    · exact absurd h (List.not_mem_nil i)
    · exact h
  refine ⟨hres.1, hres.2.1, hres.2.2.1, hres.2.2.2.1, hres.2.2.2.2, ?_⟩
  intro now2 m2 stats2 hle hkeep
  have hclean : clean_old_messages now2
      (clean_old_messages now st.window ++ [(now, m.msgId)]) =
      clean_old_messages now st.window ++ [(now, m.msgId)] := by
    apply List.filter_eq_self.mpr
    intro e he
    simpa using hkeep e he
  have hlen2 : SPAM_MAX_MESSAGES <
      (clean_old_messages now2
        (clean_old_messages now st.window ++ [(now, m.msgId)])).length + 1 := by
    rw [hclean]
    simp only [List.length_append, List.length_cons, List.length_nil,
      Nat.zero_add]
    omega
  have hsome2 := handler_flagged_some
    (clean_old_messages now st.window ++ [(now, m.msgId)]) now2 m2.msgId hlen2
  refine ⟨by rw [hsome2]; rfl, ?_⟩
  have hCool2 : cooldownActive st.lastMute now2 = false :=
    cooldown_mono hCool hle
  unfold antispam_handler
  rw [if_neg (by simp [hA, hR])]
  dsimp only
  rw [hsome2]
  dsimp only
  rw [if_neg (by simp [hCool2]), if_neg (by simp [hFail])]
  exact (continueChain_eff _ _ _ _ _ _ _).1

/-- Witness for C10: with the restrict call failing, no cooldown is
recorded and no notice is sent. -/
theorem c10_witness :
    (antispam_handler
        { isAdmin := false, canRestrict := true, restrictOk := false,
          badWordsEnabled := false, badWords := [], userFilters := [],
          today := "2026-10-12" }
        { window := [(0, 1), (100, 2), (200, 3), (300, 4)], lastMute := none }
        [] 400 { msgId := 5, text := some "hi", caption := none }).lastMute =
      none ∧
    (antispam_handler
        { isAdmin := false, canRestrict := true, restrictOk := false,
          badWordsEnabled := false, badWords := [], userFilters := [],
          today := "2026-10-12" }
        { window := [(0, 1), (100, 2), (200, 3), (300, 4)], lastMute := none }
        [] 400 { msgId := 5, text := some "hi", caption := none }).noticeSent =
      false :=
  ⟨(c10_restrict_failure_no_mutation _ _ _ _ _ rfl rfl (by decide) (by decide)
      rfl).2.1,
   (c10_restrict_failure_no_mutation _ _ _ _ _ rfl rfl (by decide) (by decide)
      rfl).2.2.1⟩

theorem at_arg_not_digit {s : String} (h : s.toList.head? = some '@') :
    pyIsDigit s = false := by
  unfold pyIsDigit
  cases hl : s.toList with
  | nil => rw [hl] at h; exact absurd h (by simp)
  | cons c t =>
    rw [hl] at h
    simp only [List.head?_cons, Option.some.injEq] at h
    subst h
    simp [List.all_cons, isPyDigit]

/-- Counterexample to C7: with `@alice` in the username cache and the
platform lookup failing, the cascade the claim describes (and the
bare-word resolver, which follows it) resolves the user, but the
slash-command resolver `get_target_user` returns nothing — it never
attempts the cache or the message entities. -/
theorem c7_counterexample :
    get_target_user none (some "/ban @alice") none = (none, none) ∧
    specResolutionCascade "@alice" 1 [] [((1, "alice"), (42, "Alice"))] none =
      ((some 42, some "Alice"), [((1, "alice"), (42, "Alice"))]) ∧
    resolve_user_arg "@alice" 1 [] [((1, "alice"), (42, "Alice"))] none =
      ((some 42, some "Alice"), [((1, "alice"), (42, "Alice"))]) := by
  decide

/-- Claim C7 amended: for an `@` argument that is not a reply, the
bare-word resolver `resolve_user_arg` follows exactly the cascade the
spec describes — username cache, then explicit user-mention entities,
then platform lookup by handle caching the result, first success wins —
while the slash-command resolver `get_target_user` attempts only the
platform lookup. -/
theorem c7_amended (userArg : String) (chatId : Nat)
    (entities : List MentionEntity) (cache : UsernameCache)
    (api : Option ApiChat)
    (hAt : userArg.toList.head? = some '@') :
    resolve_user_arg userArg chatId entities cache api =
      specResolutionCascade userArg chatId entities cache api ∧
    (∀ (text cmd : String) (rest : List String),
      pySplit text = cmd :: userArg :: rest →
      get_target_user none (some text) api = specPlatformOnly userArg api) := by
  have hdig := at_arg_not_digit hAt
  constructor
  · unfold resolve_user_arg specResolutionCascade
    rw [if_neg (by simp [hdig]), if_pos hAt]
    cases hc : (get_cached_user cache chatId userArg).1 with
    | some cid => rfl
    | none =>
      cases hf : entities.find?
          (fun e => e.etype = "text_mention" && e.user.isSome) with
      | none => cases api <;> rfl
      | some e =>
        have hpred := List.find?_some hf
        simp only [Bool.and_eq_true, decide_eq_true_eq] at hpred
        cases hu : e.user with
        | none => rw [hu] at hpred; exact absurd hpred.2 (by simp)
        | some u =>
          dsimp only
          rw [hu]
          rfl
  · intro text cmd rest hsplit
    unfold get_target_user specPlatformOnly
    dsimp only
    rw [hsplit]
    simp only [List.drop_succ_cons, List.drop_zero, List.head?_cons]
    rw [if_neg (by simp [hdig]), if_pos hAt]

/-- Witness for the amended C7 at `@bob` with a live platform
lookup. -/
theorem c7_witness :
    resolve_user_arg "@bob" 7 [] [] (some ⟨55, some "Bob B", some "bob"⟩) =
      specResolutionCascade "@bob" 7 [] []
        (some ⟨55, some "Bob B", some "bob"⟩) ∧
    get_target_user none (some "/mute @bob 5m")
        (some ⟨55, some "Bob B", some "bob"⟩) =
      specPlatformOnly "@bob" (some ⟨55, some "Bob B", some "bob"⟩) :=
  ⟨(c7_amended "@bob" 7 [] [] (some ⟨55, some "Bob B", some "bob"⟩)
      (by decide)).1,
   (c7_amended "@bob" 7 [] [] (some ⟨55, some "Bob B", some "bob"⟩)
      (by decide)).2 "/mute @bob 5m" "/mute" ["5m"] (by decide)⟩

theorem fm_id_fst (db : List WarnRec) (c uid : Nat) (uL : Option String) :
    (find_and_merge_user_data db c (some uid) uL).2.1 = some uid := by
  unfold find_and_merge_user_data
  dsimp only
  split <;> simp_all

theorem fm_both (db : List WarnRec) (c uid : Nat) (u : String) :
    find_and_merge_user_data db c (some uid) (some u) =
      (db.map (fun r =>
        if r.chatId = c && (r.userId = some uid || r.username = some u)
        then { r with userId := some uid, username := some u }
        else r), some uid, some u) := rfl

theorem fm_id_no_match (db : List WarnRec) (c uid : Nat)
    (h : db.find? (fun r => r.chatId = c && r.userId = some uid &&
      r.username.isSome) = none) :
    find_and_merge_user_data db c (some uid) none = (db, some uid, none) := by
  unfold find_and_merge_user_data
  dsimp only
  rw [h]

theorem remove_user_warns_id (db : List WarnRec) (c uid : Nat)
    (usern : Option String) :
    (remove_user_warns db c (some uid) usern).1 =
      ((find_and_merge_user_data db c (some uid)
        (usern.map lowerStr)).1).filter
        (fun r => !(r.chatId = c && r.userId = some uid)) := by
  unfold remove_user_warns
  dsimp only
  rw [fm_id_fst]

theorem remove_id_clean (db : List WarnRec) (c uid : Nat)
    (usern : Option String) :
    ∀ r ∈ (remove_user_warns db c (some uid) usern).1,
      ¬(r.chatId = c ∧ r.userId = some uid) := by
  intro r hr hcontra
  rw [remove_user_warns_id] at hr
  have h2 := (List.mem_filter.mp hr).2
  rw [Bool.not_eq_true', Bool.and_eq_false_iff] at h2
  rcases h2 with h | h <;> rw [decide_eq_false_iff_not] at h
  · exact h hcontra.1
  · exact h hcontra.2

theorem remove_id_clean_uname (db : List WarnRec) (c uid : Nat) (u : String)
    (usern : Option String) (hu : usern.map lowerStr = some u) :
    ∀ r ∈ (remove_user_warns db c (some uid) usern).1,
      ¬(r.chatId = c ∧ r.username = some u) := by
  intro r hr hcontra
  have hA := remove_id_clean db c uid usern r hr
  rw [remove_user_warns_id, hu, fm_both] at hr
  dsimp only at hr
  obtain ⟨hmem, _⟩ := List.mem_filter.mp hr
  obtain ⟨r0, hr0, heq⟩ := List.mem_map.mp hmem
  by_cases hcond : (r0.chatId = c &&
      (r0.userId = some uid || r0.username = some u)) = true
  · rw [if_pos hcond] at heq
    exact hA ⟨hcontra.1, by rw [← heq]⟩
  · rw [if_neg hcond] at heq
    subst heq
    rw [Bool.not_eq_true, Bool.and_eq_false_iff] at hcond
    rcases hcond with h | h
    · rw [decide_eq_false_iff_not] at h
      exact h hcontra.1
    · rw [Bool.or_eq_false_iff, decide_eq_false_iff_not,
        decide_eq_false_iff_not] at h
      exact h.2 hcontra.2

theorem count_after_remove (db : List WarnRec) (c uid : Nat)
    (usern : Option String) :
    (get_user_warns_count (remove_user_warns db c (some uid) usern).1 c
      (some uid) usern).2 = 0 := by
  have hA := remove_id_clean db c uid usern
  unfold get_user_warns_count
  cases hu : usern.map lowerStr with
  | none =>
    have hfind : ((remove_user_warns db c (some uid) usern).1).find?
        (fun r => r.chatId = c && r.userId = some uid &&
          r.username.isSome) = none := by
      apply List.find?_eq_none.mpr
      intro r hr hcontra
      simp only [Bool.and_eq_true, decide_eq_true_eq] at hcontra
      exact hA r hr ⟨hcontra.1.1, hcontra.1.2⟩
    rw [fm_id_no_match _ _ _ hfind]
    dsimp only
    apply List.countP_eq_zero.mpr
    intro r hr hcontra
    simp only [Bool.and_eq_true, decide_eq_true_eq] at hcontra
    exact hA r hr hcontra
  | some u =>
    have hB := remove_id_clean_uname db c uid u usern hu
    rw [fm_both]
    dsimp only
    apply List.countP_eq_zero.mpr
    intro r' hr'
    obtain ⟨r, hr, heq⟩ := List.mem_map.mp hr'
    have hcond : ¬(r.chatId = c &&
        (r.userId = some uid || r.username = some u)) = true := by
      intro hcc
      simp only [Bool.and_eq_true, Bool.or_eq_true, decide_eq_true_eq] at hcc
      rcases hcc.2 with h | h
      · exact hA r hr ⟨hcc.1, h⟩
      · exact hB r hr ⟨hcc.1, h⟩
    rw [if_neg hcond] at heq
    subst heq
    intro hcontra
    simp only [Bool.and_eq_true, decide_eq_true_eq] at hcontra
    exact hA r hr hcontra

/-- Counterexample to C4: a target resolved by username only (the
platform lookup fails throughout and no historical record carries an
id) receives a third warn — the live count reaches the threshold of 3 —
yet zero ban calls are issued and the warn count stays 3 instead of
being reset. -/
theorem c4_counterexample :
    (warn_flow
      (warn_flow
        (warn_flow [] 1 ⟨none, some "spamer", "@spamer"⟩ none 99
          ⟨fun _ => none, fun _ => none⟩ true true).1
        1 ⟨none, some "spamer", "@spamer"⟩ none 99
        ⟨fun _ => none, fun _ => none⟩ true true).1
      1 ⟨none, some "spamer", "@spamer"⟩ none 99
      ⟨fun _ => none, fun _ => none⟩ true true).2.2 = 3 ∧
    (warn_flow
      (warn_flow
        (warn_flow [] 1 ⟨none, some "spamer", "@spamer"⟩ none 99
          ⟨fun _ => none, fun _ => none⟩ true true).1
        1 ⟨none, some "spamer", "@spamer"⟩ none 99
        ⟨fun _ => none, fun _ => none⟩ true true).1
      1 ⟨none, some "spamer", "@spamer"⟩ none 99
      ⟨fun _ => none, fun _ => none⟩ true true).2.1 = 0 ∧
    (get_user_warns_count
      (warn_flow
        (warn_flow
          (warn_flow [] 1 ⟨none, some "spamer", "@spamer"⟩ none 99
            ⟨fun _ => none, fun _ => none⟩ true true).1
          1 ⟨none, some "spamer", "@spamer"⟩ none 99
          ⟨fun _ => none, fun _ => none⟩ true true).1
        1 ⟨none, some "spamer", "@spamer"⟩ none 99
        ⟨fun _ => none, fun _ => none⟩ true true).1
      1 none (some "spamer")).2 = 3 := by
  refine ⟨rfl, rfl, rfl⟩

/-- Claim C4 amended: when the resolved warn target carries a numeric
user id, the warn whose addition brings the live count to the threshold
of 3 (the bot able to restrict and the ban call succeeding) results in
exactly one ban call and the target's warn count equal to zero
afterwards; a target known only by an unresolvable username gets no ban
and no reset (see the counterexample). -/
theorem c4_amended (db : List WarnRec) (chatId uid : Nat)
    (usern : Option String) (nm : String) (reason : Option String)
    (wb : Nat) (api : WarnApi)
    (hCnt : MAX_WARNS ≤
      (warn_flow db chatId ⟨some uid, usern, nm⟩ reason wb api
        true true).2.2) :
    (warn_flow db chatId ⟨some uid, usern, nm⟩ reason wb api true true).2.1 =
      1 ∧
    (get_user_warns_count
      (warn_flow db chatId ⟨some uid, usern, nm⟩ reason wb api true true).1
      chatId (some uid) usern).2 = 0 := by
  unfold warn_flow at hCnt ⊢
  dsimp only at hCnt ⊢
  unfold try_ban_for_warns
  dsimp only
  rw [if_neg (by simp [Nat.not_lt.mpr hCnt])]
  rw [if_neg (by simp), if_pos rfl]
  exact ⟨rfl, count_after_remove _ chatId uid usern⟩

/-- Witness for the amended C4: three warns against an id-resolved
target; the third issues exactly one ban call and the count afterwards
is zero. -/
theorem c4_witness :
    (warn_flow
      (warn_flow
        (warn_flow [] 1 ⟨some 7, some "bob", "Bob"⟩ none 99
          ⟨fun _ => none, fun _ => none⟩ true true).1
        1 ⟨some 7, some "bob", "Bob"⟩ none 99
        ⟨fun _ => none, fun _ => none⟩ true true).1
      1 ⟨some 7, some "bob", "Bob"⟩ none 99
      ⟨fun _ => none, fun _ => none⟩ true true).2.1 = 1 ∧
    (get_user_warns_count
      (warn_flow
        (warn_flow
          (warn_flow [] 1 ⟨some 7, some "bob", "Bob"⟩ none 99
            ⟨fun _ => none, fun _ => none⟩ true true).1
          1 ⟨some 7, some "bob", "Bob"⟩ none 99
          ⟨fun _ => none, fun _ => none⟩ true true).1
        1 ⟨some 7, some "bob", "Bob"⟩ none 99
        ⟨fun _ => none, fun _ => none⟩ true true).1
      1 (some 7) (some "bob")).2 = 0 :=
  c4_amended
    (warn_flow
      (warn_flow [] 1 ⟨some 7, some "bob", "Bob"⟩ none 99
        ⟨fun _ => none, fun _ => none⟩ true true).1
      1 ⟨some 7, some "bob", "Bob"⟩ none 99
      ⟨fun _ => none, fun _ => none⟩ true true).1
    1 7 (some "bob") "Bob" none 99 ⟨fun _ => none, fun _ => none⟩
    (by decide)

end ChatHelpBot
